import Mathlib

/-!
Shallow embedding of `snorkel/classification/training/trainer.py` (`Trainer`).

External collaborators (torch optimizer/scheduler objects, the model's
`calculate_loss`/`score`, `LogManager`, `Checkpointer`, the batch scheduler)
are represented by explicit data supplied to the embedded functions:
per-batch outcomes of `model.calculate_loss` are carried by a `Batch` record,
the `LambdaLR`-style schedule steps by rate-transformer functions, and the
cadence manager's `close` routine by a `Model → Model` function.

Python floats are modelled as `ℚ`; Python `int(...)` truncation as `pyInt`;
Python dicts / defaultdicts as association lists preserving insertion order;
a raised exception as `Except.error`; division that can raise
`ZeroDivisionError` returns an `Option`.
-/

namespace SnorkelTrainer

/-- A model handle; the trainer treats the model opaquely, so a bare value
suffices for tracking which model value flows where. -/
abbrev Model := Nat

/-- Embeds `dataloader.dataset`: carries `name` and `split` (trainer.py reads both). -/
structure Dataset where
  name : String
  split : String
deriving DecidableEq

/-- Embeds `DictDataLoader`: the trainer reads `dl.dataset` and `len(dl)` (number of
batches). -/
structure DictDataLoader where
  dataset : Dataset
  nBatches : Nat
deriving DecidableEq

/-- The `optimizer_config` keys read by trainer.py. -/
structure OptimizerConfig where
  optimizer : String
  lr : ℚ
  grad_clip : ℚ
deriving DecidableEq

/-- The `lr_scheduler_config` keys read by trainer.py.  `warmup_steps`,
`warmup_percentage` and `min_lr` are Python numbers whose truthiness
(`if cfg[k]:`) is `≠ 0` (with `None` modelled as `0`). -/
structure LrSchedulerConfig where
  lr_scheduler : String
  warmup_steps : ℚ
  warmup_unit : String
  warmup_percentage : ℚ
  min_lr : ℚ
deriving DecidableEq

/-- The `log_writer_config` keys read by trainer.py. -/
structure LogWriterConfig where
  writer : String
deriving DecidableEq

/-- The slice of the merged trainer config that trainer.py reads. -/
structure Config where
  train_split : String
  valid_split : String
  test_split : String
  n_epochs : Nat
  progress_bar : Bool
  logging : Bool
  log_writer_config : LogWriterConfig
  optimizer_config : OptimizerConfig
  lr_scheduler_config : LrSchedulerConfig
  batch_scheduler : String
deriving DecidableEq

/-- The distinct `raise` sites of trainer.py (all `ValueError` in Python,
distinguished here by their raise site / message, matching the spec's error
taxonomy names). -/
inductive TrainerError where
  | invalidSplit
  | noTrainingData
  | invalidWarmup
  | invalidWarmupUnit
  | unrecognizedWriter
  | unrecognizedOptimizer
  | unrecognizedScheduler
  | unrecognizedBatchScheduler
deriving DecidableEq

/-! ### Python dict / defaultdict helpers (insertion-ordered assoc lists) -/

/-- Python `d[k]` on a `defaultdict(float)`: present value or `0`. -/
def ddGetQ (d : List (String × ℚ)) (k : String) : ℚ :=
  match d.find? (fun p => p.1 == k) with
  | some p => p.2
  | none => 0

/-- Python `d[k]` on a `defaultdict(int)`: present value or `0`. -/
def ddGetI (d : List (String × ℤ)) (k : String) : ℤ :=
  match d.find? (fun p => p.1 == k) with
  | some p => p.2
  | none => 0

/-- Python `d[k] = v` on a dict: overwrite in place, or append (insertion order). -/
def dictSetQ (d : List (String × ℚ)) (k : String) (v : ℚ) : List (String × ℚ) :=
  if d.any (fun p => p.1 == k) then
    d.map (fun p => if p.1 == k then (p.1, v) else p)
  else
    d ++ [(k, v)]

/-- Python `d[k] += v` on a `defaultdict(float)`. -/
def ddAddQ (d : List (String × ℚ)) (k : String) (v : ℚ) : List (String × ℚ) :=
  dictSetQ d k (ddGetQ d k + v)

/-- Python `d[k] = v` on an int-valued dict. -/
def dictSetI (d : List (String × ℤ)) (k : String) (v : ℤ) : List (String × ℤ) :=
  if d.any (fun p => p.1 == k) then
    d.map (fun p => if p.1 == k then (p.1, v) else p)
  else
    d ++ [(k, v)]

/-- Python `d[k] += v` on a `defaultdict(int)`. -/
def ddAddI (d : List (String × ℤ)) (k : String) (v : ℤ) : List (String × ℤ) :=
  dictSetI d k (ddGetI d k + v)

/-- Python `d.update(new)` on a dict. -/
def dictUpdateQ (d new : List (String × ℚ)) : List (String × ℚ) :=
  new.foldl (fun acc p => dictSetQ acc p.1 p.2) d

/-- Python `int(q)` for a float: truncation toward zero. -/
def pyInt (q : ℚ) : ℤ :=
  if 0 ≤ q then q.floor else q.ceil

/-! ### `_check_dataloaders` (trainer.py lines 139-153) -/

/-- Embeds `Trainer._check_dataloaders`: every split must be one of
`[train_split, valid_split, test_split]` (else the first `raise`, the spec's
`InvalidSplitError`), and some loader must have the train split (else the
second `raise`, the spec's `NoTrainingDataError`). -/
def checkDataloaders (cfg : Config) (dataloaders : List DictDataLoader) :
    Except TrainerError Unit :=
  let allSplits := [cfg.train_split, cfg.valid_split, cfg.test_split]
  if !(dataloaders.all (fun d => allSplits.contains d.dataset.split)) then
    .error .invalidSplit
  else if !(dataloaders.any (fun d => d.dataset.split == cfg.train_split)) then
    .error .noTrainingData
  else
    .ok ()

/-! ### Train-loader selection (trainer.py lines 49-58) -/

/-- The loaders trained on: `dl.dataset.split == self.config["train_split"]`. -/
def trainDataloaders (cfg : Config) (dataloaders : List DictDataLoader) :
    List DictDataLoader :=
  dataloaders.filter (fun dl => dl.dataset.split == cfg.train_split)

/-- Embeds `self.n_batches_per_epoch = sum([len(dl) for dl in train_dataloaders])`. -/
def nBatchesPerEpoch (cfg : Config) (dataloaders : List DictDataLoader) : Nat :=
  ((trainDataloaders cfg dataloaders).map (fun dl => dl.nBatches)).sum

/-! ### `_set_log_writer`, `_set_optimizer`, `_set_batch_scheduler`
(validation-relevant parts; the constructed torch/writer objects themselves
are external) -/

/-- Embeds `Trainer._set_log_writer` validation: with logging enabled the writer
name must be `json` or `tensorboard`. -/
def setLogWriter (cfg : Config) : Except TrainerError Unit :=
  if cfg.logging then
    if cfg.log_writer_config.writer == "json"
        || cfg.log_writer_config.writer == "tensorboard" then
      .ok ()
    else
      .error .unrecognizedWriter
  else
    .ok ()

/-- Embeds `Trainer._set_optimizer` validation: optimizer name must be one of
`sgd`, `adam`, `adamax`. -/
def setOptimizer (cfg : Config) : Except TrainerError Unit :=
  if cfg.optimizer_config.optimizer == "sgd"
      || cfg.optimizer_config.optimizer == "adam"
      || cfg.optimizer_config.optimizer == "adamax" then
    .ok ()
  else
    .error .unrecognizedOptimizer

/-- Embeds `Trainer._set_batch_scheduler` validation.  The `batch_schedulers`
mapping lives outside this file's source; its keys are the named
interleaving strategies `sequential` and `shuffled`. -/
def setBatchScheduler (cfg : Config) : Except TrainerError Unit :=
  if cfg.batch_scheduler == "sequential" || cfg.batch_scheduler == "shuffled" then
    .ok ()
  else
    .error .unrecognizedBatchScheduler

/-! ### `_set_warmup_scheduler` (trainer.py lines 271-308) -/

/-- The warmup `LambdaLR` multiplier `lambda x: x / self.warmup_steps`.
Python raises `ZeroDivisionError` when `warmup_steps == 0`, modelled as
`none`. -/
def warmupMultiplier (warmupSteps : ℤ) (x : Nat) : Option ℚ :=
  if warmupSteps = 0 then none else some ((x : ℚ) / (warmupSteps : ℚ))

/-- Result of `_set_warmup_scheduler`: the optional warmup scheduler (with
its multiplier function) and `self.warmup_steps`. -/
structure WarmupResult where
  warmupScheduler : Option (Nat → Option ℚ)
  warmupSteps : ℤ

/-- Embeds `Trainer._set_warmup_scheduler`: the `warmup_steps` branch is guarded by
truthiness (`if cfg[...]["warmup_steps"]:`), raises on a negative count,
then dispatches on `warmup_unit`; the `warmup_percentage` branch computes
`int(pct * n_epochs * n_batches_per_epoch)`; otherwise no warmup and
`self.warmup_steps = 0`. -/
def setWarmupScheduler (cfg : Config) (nPerEpoch : Nat) :
    Except TrainerError WarmupResult :=
  let c := cfg.lr_scheduler_config
  if c.warmup_steps ≠ 0 then
    if c.warmup_steps < 0 then
      .error .invalidWarmup
    else if c.warmup_unit == "epochs" then
      let ws := pyInt (c.warmup_steps * (nPerEpoch : ℚ))
      .ok ⟨some (warmupMultiplier ws), ws⟩
    else if c.warmup_unit == "batches" then
      let ws := pyInt c.warmup_steps
      .ok ⟨some (warmupMultiplier ws), ws⟩
    else
      .error .invalidWarmupUnit
  else if c.warmup_percentage ≠ 0 then
    let ws := pyInt (c.warmup_percentage * (cfg.n_epochs : ℚ) * (nPerEpoch : ℚ))
    .ok ⟨some (warmupMultiplier ws), ws⟩
  else
    .ok ⟨none, 0⟩

/-- Embeds `Trainer._set_lr_scheduler` decay dispatch: `constant` means no decay
scheduler; `linear`/`exponential`/`step` construct one (its stepping
behaviour is the external torch scheduler, abstracted as a rate
transformer); anything else raises. -/
def setLrSchedulerKind (cfg : Config) : Except TrainerError Bool :=
  let opt := cfg.lr_scheduler_config.lr_scheduler
  if opt == "constant" then
    .ok false
  else if opt == "linear" || opt == "exponential" || opt == "step" then
    .ok true
  else
    .error .unrecognizedScheduler

/-! ### `_update_lr_scheduler` (trainer.py lines 310-319) -/

/-- The learning-rate-related mutable state: the optimizer's
`param_groups[0]["lr"]` plus counters of how many times each scheduler's
`.step()` has run. -/
structure LrState where
  lr : ℚ
  warmupStepCount : Nat
  decayStepCount : Nat
deriving DecidableEq

/-- Embeds `Trainer._update_lr_scheduler(step)`:
`if self.warmup_scheduler and step < self.warmup_steps:` advance warmup;
`elif self.lr_scheduler is not None:` advance decay, then clamp the
optimizer's rate up to `min_lr` when `min_lr` is truthy and the rate fell
below it.  The schedulers' own `.step()` rate updates are the external
torch objects, abstracted as `warmupNext` / `decayNext`. -/
def updateLrScheduler (warmupPresent : Bool) (warmupNext : ℚ → ℚ)
    (warmupSteps : ℤ) (decayPresent : Bool) (decayNext : ℚ → ℚ) (minLr : ℚ)
    (step : Nat) (s : LrState) : LrState :=
  if warmupPresent = true ∧ (step : ℤ) < warmupSteps then
    { s with lr := warmupNext s.lr, warmupStepCount := s.warmupStepCount + 1 }
  else if decayPresent = true then
    let lr1 := decayNext s.lr
    let lr2 := if minLr ≠ 0 ∧ lr1 < minLr then minLr else lr1
    { s with lr := lr2, decayStepCount := s.decayStepCount + 1 }
  else
    s

/-! ### `_aggregate_losses` (trainer.py lines 384-407) -/

/-- Embeds `Trainer._aggregate_losses`, as a function of the accumulators and the
current optimizer rate.  Note the source probes `self.running_counts` with
the full `identifier` string here (reading a `defaultdict` only yields a
zero default, which changes no emitted value). -/
def aggregateLosses (runningLosses : List (String × ℚ))
    (runningCounts : List (String × ℤ)) (lr : ℚ) : List (String × ℚ) :=
  let metricDict : List (String × ℚ) :=
    runningLosses.foldl
      (fun acc p =>
        if 0 < ddGetI runningCounts p.1 then
          dictSetQ acc p.1 (p.2 / ((ddGetI runningCounts p.1 : ℤ) : ℚ))
        else
          acc)
      []
  let totalLoss := (runningLosses.map (fun p => p.2)).sum
  let totalCount := (runningCounts.map (fun p => p.2)).sum
  let metricDict :=
    if 0 < totalCount then
      dictSetQ metricDict "model/all/train/loss" (totalLoss / ((totalCount : ℤ) : ℚ))
    else
      metricDict
  dictSetQ metricDict "model/all/train/lr" lr

/-! ### `_evaluate` (trainer.py lines 329-333) -/

/-- Byte-wise: does `haystack` begin with `needle`?  (Helper for Python's
substring test.) -/
def charsStartWith : List Char → List Char → Bool
  | [], _ => true
  | _ :: _, [] => false
  | a :: as, b :: bs => a == b && charsStartWith as bs

/-- Does `haystack` contain `needle` as a contiguous run?  (Python's
`needle in haystack` on strings.) -/
def charsContain (needle : List Char) : List Char → Bool
  | [] => charsStartWith needle []
  | b :: bs => charsStartWith needle (b :: bs) || charsContain needle bs

/-- Python `needle in haystack` for strings: substring containment. -/
def pyStrIn (needle haystack : String) : Bool :=
  charsContain needle.data haystack.data

/-- The loader selection of `Trainer._evaluate`:
`[d for d in dataloaders if d.dataset.split in split]` — note `in`, i.e.
substring containment, not equality.  (`model.score` is external.) -/
def evaluateLoaders (dataloaders : List DictDataLoader) (split : String) :
    List DictDataLoader :=
  dataloaders.filter (fun d => pyStrIn d.dataset.split split)

/-! ### The training loop (trainer.py lines 76-137) -/

/-- One yielded batch of the interleaved schedule together with the external
outcomes attached to it: what `model.calculate_loss` returned
(`lossDict`/`countDict`), the source loader's dataset name/split, the batch
size, and the cadence manager's trigger decisions plus the evaluation
metrics `model.score` would produce at this point. -/
structure Batch where
  lossDict : List (String × ℚ)
  countDict : List (String × ℤ)
  batchSize : Nat
  dataloaderName : String
  dataloaderSplit : String
  triggerEval : Bool
  triggerCheckpoint : Bool
  evalMetrics : List (String × ℚ)
deriving DecidableEq

/-- Mutable trainer state threaded through the loop body, with counters for
the externally visible actions (`zero_grad`, `loss.backward()`,
`clip_grad_norm_`, `optimizer.step()`, and `_logging` invocations). -/
structure LoopState where
  lr : ℚ
  warmupStepCount : Nat
  decayStepCount : Nat
  runningLosses : List (String × ℚ)
  runningCounts : List (String × ℤ)
  metrics : List (String × ℚ)
  zeroGradCalls : Nat
  backwardCalls : Nat
  clipCalls : Nat
  optimizerSteps : Nat
  loggingCalls : Nat
deriving DecidableEq

/-- The loop-invariant parameters assembled during configuration. -/
structure LoopParams where
  gradClip : ℚ
  warmupPresent : Bool
  warmupSteps : ℤ
  decayPresent : Bool
  minLr : ℚ
  warmupNext : ℚ → ℚ
  decayNext : ℚ → ℚ

/-- Embeds `Trainer._reset_losses`. -/
def resetLossesState (s : LoopState) : LoopState :=
  { s with runningLosses := [], runningCounts := [] }

/-- Accumulator update, trainer.py lines 98-111: for each task in
`loss_dict`, build `identifier = "/".join([task, name, split, "loss"])`,
add `loss * count` under the identifier and `count` under the task name.
(`count_dict[task_name]` is a plain dict access; `calculate_loss` returns
both dicts with the same key set, so the lookup always finds the key.) -/
def updateRunningLossesAndCounts (datasetName datasetSplit : String)
    (lossDict : List (String × ℚ)) (countDict : List (String × ℤ))
    (runningLosses : List (String × ℚ)) (runningCounts : List (String × ℤ)) :
    List (String × ℚ) × List (String × ℤ) :=
  lossDict.foldl
    (fun acc p =>
      let taskName := p.1
      let identifier :=
        taskName ++ "/" ++ datasetName ++ "/" ++ datasetSplit ++ "/" ++ "loss"
      let c := ddGetI countDict taskName
      (ddAddQ acc.1 identifier (p.2 * (c : ℚ)), ddAddI acc.2 taskName c))
    (runningLosses, runningCounts)

/-- Embeds `Trainer._logging` (trainer.py lines 335-369): always aggregates the
running losses into a metric dict; on an evaluation trigger merges the
evaluation metrics and resets the accumulators; on a checkpoint trigger
resets the accumulators.  (`log_manager.update`, the trigger decisions,
`_log_metrics` and `_checkpoint_model` act on external collaborators; the
trigger outcomes arrive on the `Batch`.) -/
def loggingStep (b : Batch) (s : LoopState) :
    List (String × ℚ) × LoopState :=
  let metricDict := aggregateLosses s.runningLosses s.runningCounts s.lr
  let md1 := if b.triggerEval then dictUpdateQ metricDict b.evalMetrics else metricDict
  let s1 := if b.triggerEval then resetLossesState s else s
  let s2 := if b.triggerCheckpoint then resetLossesState s1 else s1
  (md1, s2)

/-- The body of the inner batch loop, trainer.py lines 83-135: update the
lr schedule, zero gradients, accumulate loss/count, then — only when
`loss_dict` is non-empty (`if not loss_dict: continue`) — backward pass,
optional gradient clipping, optimizer step, and the `_logging` step whose
result updates `self.metrics`. -/
def processBatch (p : LoopParams) (totalBatchNum : Nat) (b : Batch)
    (s : LoopState) : LoopState :=
  let l1 := updateLrScheduler p.warmupPresent p.warmupNext p.warmupSteps
    p.decayPresent p.decayNext p.minLr totalBatchNum
    ⟨s.lr, s.warmupStepCount, s.decayStepCount⟩
  let s := { s with lr := l1.lr, warmupStepCount := l1.warmupStepCount,
                    decayStepCount := l1.decayStepCount }
  let s := { s with zeroGradCalls := s.zeroGradCalls + 1 }
  let rlrc := updateRunningLossesAndCounts b.dataloaderName b.dataloaderSplit
    b.lossDict b.countDict s.runningLosses s.runningCounts
  let s := { s with runningLosses := rlrc.1, runningCounts := rlrc.2 }
  if b.lossDict.isEmpty then
    s
  else
    let s := { s with backwardCalls := s.backwardCalls + 1 }
    let s := if p.gradClip ≠ 0 then { s with clipCalls := s.clipCalls + 1 } else s
    let s := { s with optimizerSteps := s.optimizerSteps + 1 }
    let mds := loggingStep b s
    { mds.2 with metrics := dictUpdateQ mds.2.metrics mds.1,
                 loggingCalls := mds.2.loggingCalls + 1 }

/-- The inner loop over one epoch's batches, with the running
`total_batch_num` index. -/
def runBatches (p : LoopParams) : Nat → List Batch → LoopState → LoopState
  | _, [], s => s
  | i, b :: bs, s => runBatches p (i + 1) bs (processBatch p i b s)

/-- The outer loop over epochs: `total_batch_num = epoch_num *
n_batches_per_epoch + batch_num`.  The batch scheduler's interleaved
sequence for an epoch is the external `epochBatches`. -/
def runTrainingLoop (p : LoopParams) (nEpochs nPerEpoch : Nat)
    (epochBatches : List Batch) (s : LoopState) : LoopState :=
  (List.range nEpochs).foldl
    (fun st e => runBatches p (e * nPerEpoch) epochBatches st) s

/-- State at `train_model` loop entry: base rate from the optimizer config,
`self.metrics = dict()`, `self._reset_losses()`, no steps taken. -/
def initLoopState (lr : ℚ) : LoopState :=
  { lr := lr, warmupStepCount := 0, decayStepCount := 0, runningLosses := [],
    runningCounts := [], metrics := [], zeroGradCalls := 0, backwardCalls := 0,
    clipCalls := 0, optimizerSteps := 0, loggingCalls := 0 }

/-- The observable outcome of a successful `train_model` call: the computed
`n_batches_per_epoch`, the final loop state, the Python return value
(`train_model` is annotated `-> None` and has no return statement, so this
is always `none`), and the value of the local variable `model` after line
137 `model = self.log_manager.close(model)`. -/
structure TrainRun where
  nBatchesPerEpoch : Nat
  finalState : LoopState
  returnValue : Option Model
  closedModel : Model
deriving DecidableEq

/-- Embeds `Trainer.train_model` (trainer.py lines 36-137): validate the loaders,
compute `n_batches_per_epoch`, run the configuration stages in source order
(log writer, checkpointer, log manager, optimizer, lr scheduler with warmup
first, batch scheduler — those that can raise are modelled; the
checkpointer/log-manager constructions cannot), run the epoch loop, and
finally rebind the local `model` to `self.log_manager.close(model)` while
returning `None`. -/
def trainModel (cfg : Config) (dataloaders : List DictDataLoader)
    (epochBatches : List Batch) (warmupNext decayNext : ℚ → ℚ)
    (close : Model → Model) (model : Model) : Except TrainerError TrainRun :=
  match checkDataloaders cfg dataloaders with
  | .error e => .error e
  | .ok _ =>
    let n := nBatchesPerEpoch cfg dataloaders
    match setLogWriter cfg with
    | .error e => .error e
    | .ok _ =>
      match setOptimizer cfg with
      | .error e => .error e
      | .ok _ =>
        match setWarmupScheduler cfg n with
        | .error e => .error e
        | .ok w =>
          match setLrSchedulerKind cfg with
          | .error e => .error e
          | .ok decayPresent =>
            match setBatchScheduler cfg with
            | .error e => .error e
            | .ok _ =>
              let p : LoopParams :=
                { gradClip := cfg.optimizer_config.grad_clip,
                  warmupPresent := w.warmupScheduler.isSome,
                  warmupSteps := w.warmupSteps,
                  decayPresent := decayPresent,
                  minLr := cfg.lr_scheduler_config.min_lr,
                  warmupNext := warmupNext, decayNext := decayNext }
              let final := runTrainingLoop p cfg.n_epochs n epochBatches
                (initLoopState cfg.optimizer_config.lr)
              .ok { nBatchesPerEpoch := n, finalState := final,
                    returnValue := none, closedModel := close model }

/-! ### Concrete fixtures used by counterexamples and witnesses -/

/-- A loader on the default train split. -/
def dlTrain : DictDataLoader := ⟨⟨"trainset", "train"⟩, 1⟩

/-- A loader on the default valid split. -/
def dlValid : DictDataLoader := ⟨⟨"validdata", "valid"⟩, 1⟩

/-- A loader whose split label is in none of the configured splits. -/
def dlBogus : DictDataLoader := ⟨⟨"bogusdata", "bogus"⟩, 1⟩

/-- A loader whose split label `val` is a proper substring of `valid`. -/
def dlVal : DictDataLoader := ⟨⟨"valdata", "val"⟩, 1⟩

/-- A default-like configuration on which every configuration stage
succeeds: no warmup, constant decay, no clipping, logging off. -/
def cfg0 : Config :=
  { train_split := "train", valid_split := "valid", test_split := "test",
    n_epochs := 1, progress_bar := false, logging := false,
    log_writer_config := ⟨"json"⟩,
    optimizer_config := { optimizer := "sgd", lr := 1/10, grad_clip := 0 },
    lr_scheduler_config :=
      { lr_scheduler := "constant", warmup_steps := 0, warmup_unit := "batches",
        warmup_percentage := 0, min_lr := 0 },
    batch_scheduler := "sequential" }

/-- Config `cfg0` with an explicit negative warmup batch count. -/
def cfgNeg : Config :=
  { cfg0 with lr_scheduler_config :=
    { cfg0.lr_scheduler_config with warmup_steps := -1 } }

/-- Config `cfg0` with warmup given as a percentage small enough that
`int(pct * n_epochs * n_batches_per_epoch)` is `0` for 50 batches/epoch. -/
def cfg10 : Config :=
  { cfg0 with lr_scheduler_config :=
    { cfg0.lr_scheduler_config with warmup_percentage := 1/100 } }

/-- Loop parameters of `cfg0`: no warmup, no decay, no clipping. -/
def p0 : LoopParams :=
  { gradClip := 0, warmupPresent := false, warmupSteps := 0,
    decayPresent := false, minLr := 0, warmupNext := id, decayNext := id }

/-- Loop state at loop entry under `cfg0`. -/
def s0 : LoopState := initLoopState (1/10)

/-- A batch on which `model.calculate_loss` returned empty dicts (no task
had applicable labels). -/
def b0 : Batch :=
  { lossDict := [], countDict := [], batchSize := 5,
    dataloaderName := "trainset", dataloaderSplit := "train",
    triggerEval := false, triggerCheckpoint := false, evalMetrics := [] }

/-- A learning-rate state with base rate 1. -/
def lrS0 : LrState := ⟨1, 0, 0⟩

/-- The outcome of `trainModel cfg0 [dlTrain] [] id id (fun x => x + 1) 41`:
one batch per epoch, no batches actually yielded, model rebound to `42`. -/
def run0 : TrainRun :=
  { nBatchesPerEpoch := 1, finalState := initLoopState (1/10),
    returnValue := none, closedModel := 42 }

/-! ### C5 -/

/-- C5: for every configuration and every list of dataloaders,
`n_batches_per_epoch` equals the sum of the lengths of exactly those
loaders whose split equals `train_split`; loaders with valid or test
splits contribute nothing (their summand is `0`). -/
theorem nBatchesPerEpoch_counts_only_train_loaders (cfg : Config)
    (dls : List DictDataLoader) :
    nBatchesPerEpoch cfg dls =
      (dls.map (fun dl =>
        if dl.dataset.split = cfg.train_split then dl.nBatches else 0)).sum := by
  induction dls with
  | nil => rfl
  | cons d ds ih =>
    simp only [nBatchesPerEpoch, trainDataloaders] at ih ⊢
    by_cases h : d.dataset.split = cfg.train_split
    · simp [List.filter_cons, h, ih]
    · simp [List.filter_cons, h, ih]

/-! ### C4 -/

/-- C4: a loader with a split outside `{train_split, valid_split,
test_split}` makes `train_model` abort with the invalid-split error; with
all splits valid but none equal to `train_split` it aborts with the
no-training-data error.  `_check_dataloaders` is the first statement of
`train_model`, so the error result is produced before any configuration or
training stage runs: no training state exists, no optimizer step or file
write is reached. -/
theorem trainModel_loader_validation (cfg : Config) (dls : List DictDataLoader)
    (eb : List Batch) (wN dN : ℚ → ℚ) (close : Model → Model) (m : Model) :
    ((∃ d ∈ dls, d.dataset.split ∉ [cfg.train_split, cfg.valid_split, cfg.test_split]) →
      trainModel cfg dls eb wN dN close m = .error .invalidSplit) ∧
    ((∀ d ∈ dls, d.dataset.split ∈ [cfg.train_split, cfg.valid_split, cfg.test_split]) →
      (∀ d ∈ dls, d.dataset.split ≠ cfg.train_split) →
      trainModel cfg dls eb wN dN close m = .error .noTrainingData) := by
  constructor
  · rintro ⟨d, hd, hsplit⟩
    have hfalse : (dls.all fun x =>
        ([cfg.train_split, cfg.valid_split, cfg.test_split].contains x.dataset.split)) = false := by
      rw [List.all_eq_false]
      refine ⟨d, hd, ?_⟩
      simpa [List.contains, List.elem_iff] using hsplit
    have hc : checkDataloaders cfg dls = .error .invalidSplit := by
      simp only [checkDataloaders]
      rw [hfalse]
      rfl
    simp [trainModel, hc]
  · intro hall hnone
    have htrue : (dls.all fun x =>
        ([cfg.train_split, cfg.valid_split, cfg.test_split].contains x.dataset.split)) = true := by
      rw [List.all_eq_true]
      intro x hx
      simpa [List.contains, List.elem_iff] using hall x hx
    have hany : (dls.any fun x => x.dataset.split == cfg.train_split) = false := by
      rw [List.any_eq_false]
      intro x hx
      simpa using hnone x hx
    have hc : checkDataloaders cfg dls = .error .noTrainingData := by
      simp only [checkDataloaders]
      rw [htrue, hany]
      rfl
    simp [trainModel, hc]

/-- C4 witness: `[train, bogus]` yields the invalid-split error and
`[valid]` alone yields the no-training-data error, both as aborts of
`train_model`. -/
theorem trainModel_loader_validation_witness :
    trainModel cfg0 [dlTrain, dlBogus] [] id id id 0 = .error .invalidSplit ∧
    trainModel cfg0 [dlValid] [] id id id 0 = .error .noTrainingData :=
  ⟨(trainModel_loader_validation cfg0 [dlTrain, dlBogus] [] id id id 0).1
      ⟨dlBogus, by decide, by decide⟩,
   (trainModel_loader_validation cfg0 [dlValid] [] id id id 0).2
      (by decide) (by decide)⟩

/-! ### C6 -/

/-- C6: in `_update_lr_scheduler`, warmup and decay are mutually exclusive
per step: never do both advance; when a warmup scheduler exists and
`step < warmup_steps` only the warmup schedule advances; otherwise the
warmup schedule does not advance and the decay schedule advances exactly
when one exists. -/
theorem updateLrScheduler_warmup_decay_exclusive (wp : Bool) (wN : ℚ → ℚ)
    (ws : ℤ) (dp : Bool) (dN : ℚ → ℚ) (ml : ℚ) (step : Nat) (s : LrState) :
    ¬ ((updateLrScheduler wp wN ws dp dN ml step s).warmupStepCount = s.warmupStepCount + 1 ∧
       (updateLrScheduler wp wN ws dp dN ml step s).decayStepCount = s.decayStepCount + 1) ∧
    (wp = true ∧ (step : ℤ) < ws →
      (updateLrScheduler wp wN ws dp dN ml step s).warmupStepCount = s.warmupStepCount + 1 ∧
      (updateLrScheduler wp wN ws dp dN ml step s).decayStepCount = s.decayStepCount) ∧
    (¬ (wp = true ∧ (step : ℤ) < ws) →
      (updateLrScheduler wp wN ws dp dN ml step s).warmupStepCount = s.warmupStepCount ∧
      (dp = true →
        (updateLrScheduler wp wN ws dp dN ml step s).decayStepCount = s.decayStepCount + 1) ∧
      (dp = false →
        (updateLrScheduler wp wN ws dp dN ml step s).decayStepCount = s.decayStepCount)) := by
  unfold updateLrScheduler
  by_cases h1 : wp = true ∧ (step : ℤ) < ws
  · simp [h1]
  · by_cases h2 : dp = true
    · simp [h1, h2]
    · simp [h1, h2]

/-! ### C7 -/

/-- C7: on a decay step (the warmup branch not taken, a decay scheduler
present) with a truthy configured floor `min_lr`, the optimizer's rate
after `_update_lr_scheduler` is never below `min_lr`, and if the decay
policy drove it below `min_lr` it is clamped back to exactly `min_lr`. -/
theorem updateLrScheduler_min_lr_clamp (wp : Bool) (wN : ℚ → ℚ) (ws : ℤ)
    (dN : ℚ → ℚ) (ml : ℚ) (step : Nat) (s : LrState)
    (hbranch : ¬ (wp = true ∧ (step : ℤ) < ws)) (hml : ml ≠ 0) :
    ml ≤ (updateLrScheduler wp wN ws true dN ml step s).lr ∧
    (dN s.lr < ml → (updateLrScheduler wp wN ws true dN ml step s).lr = ml) := by
  unfold updateLrScheduler
  rw [if_neg hbranch, if_pos rfl]
  by_cases h : dN s.lr < ml
  · exact ⟨by simp [hml, h], fun _ => by simp [hml, h]⟩
  · exact ⟨by simpa [h] using le_of_not_lt h, fun hc => absurd hc h⟩

/-- C7 witness: with base rate `1`, a decay policy that drives the rate to
`0`, and floor `1/100`, the post-step rate is exactly the floor. -/
theorem updateLrScheduler_min_lr_clamp_witness :
    (1 : ℚ)/100 ≤ (updateLrScheduler false id 0 true (fun _ => 0) (1/100) 7 lrS0).lr ∧
    ((0 : ℚ) < 1/100 →
      (updateLrScheduler false id 0 true (fun _ => 0) (1/100) 7 lrS0).lr = 1/100) :=
  updateLrScheduler_min_lr_clamp false id 0 (fun _ => 0) (1/100) 7 lrS0
    (by simp) (by norm_num)

/-! ### C8 -/

/-- C8: a negative explicit `warmup_steps` is truthy, so
`_set_warmup_scheduler` takes the explicit branch and raises (the spec's
`InvalidWarmupError`); inside `train_model` that happens in the
configuration stage — after loader validation and the writer/optimizer
setup, before the training loop — so with those stages passing,
`train_model` aborts with exactly this error and no training occurs. -/
theorem setWarmupScheduler_negative_raises (cfg : Config)
    (h : cfg.lr_scheduler_config.warmup_steps < 0) :
    (∀ n, setWarmupScheduler cfg n = .error .invalidWarmup) ∧
    (∀ dls eb wN dN close m, checkDataloaders cfg dls = .ok () →
      setLogWriter cfg = .ok () → setOptimizer cfg = .ok () →
      trainModel cfg dls eb wN dN close m = .error .invalidWarmup) := by
  have hw : ∀ n, setWarmupScheduler cfg n = .error .invalidWarmup := by
    intro n
    unfold setWarmupScheduler
    rw [if_pos (ne_of_lt h), if_pos h]
  refine ⟨hw, ?_⟩
  intro dls eb wN dN close m hc hlw ho
  simp [trainModel, hc, hlw, ho, hw]

/-- C8 witness: `warmup_steps = -1` makes both `_set_warmup_scheduler` and
the whole `train_model` call abort with the invalid-warmup error. -/
theorem setWarmupScheduler_negative_raises_witness :
    setWarmupScheduler cfgNeg 10 = .error .invalidWarmup ∧
    trainModel cfgNeg [dlTrain] [] id id id 0 = .error .invalidWarmup :=
  ⟨(setWarmupScheduler_negative_raises cfgNeg (by norm_num [cfgNeg, cfg0])).1 10,
   (setWarmupScheduler_negative_raises cfgNeg (by norm_num [cfgNeg, cfg0])).2
      [dlTrain] [] id id id 0 (by rfl) (by rfl) (by rfl)⟩

/-! ### C10 -/

/-- C10: when warmup comes from `warmup_percentage` and
`int(warmup_percentage * n_epochs * n_batches_per_epoch)` is `0`,
`_set_warmup_scheduler` still constructs a warmup scheduler with
`warmup_steps = 0` whose multiplier `x / warmup_steps` divides by zero
(modelled as `none`, Python's `ZeroDivisionError`) at every input; whereas
an explicit `warmup_steps` of `0` is falsy (with `warmup_percentage` also
falsy), so no warmup scheduler is built at all. -/
theorem setWarmupScheduler_percentage_div_by_zero (cfg : Config) (n : Nat)
    (hts : cfg.lr_scheduler_config.warmup_steps = 0)
    (hp : cfg.lr_scheduler_config.warmup_percentage ≠ 0)
    (h0 : pyInt (cfg.lr_scheduler_config.warmup_percentage * (cfg.n_epochs : ℚ) * (n : ℚ)) = 0) :
    setWarmupScheduler cfg n = .ok ⟨some (warmupMultiplier 0), 0⟩ ∧
    (∀ x, warmupMultiplier 0 x = none) ∧
    (∀ cfg2 n2, cfg2.lr_scheduler_config.warmup_steps = 0 →
      cfg2.lr_scheduler_config.warmup_percentage = 0 →
      setWarmupScheduler cfg2 n2 = .ok ⟨none, 0⟩) := by
  refine ⟨?_, ?_, ?_⟩
  · unfold setWarmupScheduler
    rw [if_neg (by simp [hts]), if_pos hp]
    simp [h0]
  · intro x
    simp [warmupMultiplier]
  · intro cfg2 n2 h1 h2
    unfold setWarmupScheduler
    rw [if_neg (by simp [h1]), if_neg (by simp [h2])]

/-- C10 witness: `warmup_percentage = 1/100`, one epoch of 50 batches:
`int(0.01 * 1 * 50) = 0`, yet a warmup scheduler is constructed and its
multiplier raises on division by zero. -/
theorem setWarmupScheduler_percentage_div_by_zero_witness :
    setWarmupScheduler cfg10 50 = .ok ⟨some (warmupMultiplier 0), 0⟩ ∧
    warmupMultiplier 0 0 = none := by
  have h2 : cfg10.lr_scheduler_config.warmup_percentage * (cfg10.n_epochs : ℚ) *
      ((50 : ℕ) : ℚ) = 1/2 := by
    norm_num [cfg10, cfg0]
  have h0 : pyInt (cfg10.lr_scheduler_config.warmup_percentage *
      (cfg10.n_epochs : ℚ) * ((50 : ℕ) : ℚ)) = 0 := by
    simp only [pyInt, h2]
    rw [if_pos (by norm_num : (0:ℚ) ≤ 1/2)]
    show ⌊(1:ℚ)/2⌋ = 0
    norm_num
  have hmain := setWarmupScheduler_percentage_div_by_zero cfg10 50 rfl
    (by norm_num [cfg10, cfg0]) h0
  exact ⟨hmain.1, hmain.2.1 0⟩

/-! ### C9 -/

/-- Helper: `charsStartWith` decides the begins-with relation. -/
theorem charsStartWith_iff (n : List Char) :
    ∀ h : List Char, charsStartWith n h = true ↔ ∃ t, h = n ++ t := by
  induction n with
  | nil =>
    intro h
    simp [charsStartWith]
  | cons a as ih =>
    intro h
    cases h with
    | nil => simp [charsStartWith]
    | cons b bs =>
      rw [show charsStartWith (a :: as) (b :: bs) = (a == b && charsStartWith as bs)
          from rfl, Bool.and_eq_true, beq_iff_eq, ih bs]
      constructor
      · rintro ⟨rfl, t, rfl⟩
        exact ⟨t, rfl⟩
      · rintro ⟨t, ht⟩
        injection ht with h1 h2
        exact ⟨h1.symm, t, h2⟩

/-- Helper: `charsContain` decides contiguous containment. -/
theorem charsContain_iff (n : List Char) :
    ∀ h : List Char, charsContain n h = true ↔ ∃ p t, h = p ++ n ++ t := by
  intro h
  induction h with
  | nil =>
    rw [show charsContain n [] = charsStartWith n [] from rfl, charsStartWith_iff]
    constructor
    · rintro ⟨t, ht⟩
      exact ⟨[], t, ht⟩
    · rintro ⟨p, t, ht⟩
      have h1 := ht.symm
      rw [List.append_eq_nil] at h1
      rcases h1 with ⟨h2, h3⟩
      rw [List.append_eq_nil] at h2
      exact ⟨[], by simp [h2.2, h3]⟩
  | cons b bs ih =>
    rw [show charsContain n (b :: bs) =
        (charsStartWith n (b :: bs) || charsContain n bs) from rfl,
      Bool.or_eq_true, charsStartWith_iff, ih]
    constructor
    · rintro (⟨t, ht⟩ | ⟨p, t, ht⟩)
      · exact ⟨[], t, by simpa using ht⟩
      · exact ⟨b :: p, t, by simp [ht]⟩
    · rintro ⟨p, t, ht⟩
      cases p with
      | nil => exact Or.inl ⟨t, by simpa using ht⟩
      | cons c p2 =>
        injection ht with h1 h2
        exact Or.inr ⟨p2, t, h2⟩

/-- Python's `in` on strings is containment of a contiguous character run. -/
theorem pyStrIn_iff (needle haystack : String) :
    pyStrIn needle haystack = true ↔
      ∃ p t, haystack.data = p ++ needle.data ++ t :=
  charsContain_iff needle.data haystack.data

/-- C9: `_evaluate` selects loaders by substring containment (`in`), not by
equality: a loader is scored exactly when its split's characters occur
contiguously inside the given split string; in particular a loader with
split `val` is selected for `valid` although the two differ. -/
theorem evaluate_selects_loaders_by_substring (dls : List DictDataLoader)
    (split : String) (d : DictDataLoader) :
    (d ∈ evaluateLoaders dls split ↔
      d ∈ dls ∧ ∃ p t, split.data = p ++ d.dataset.split.data ++ t) ∧
    (evaluateLoaders [dlVal] "valid" = [dlVal] ∧ dlVal.dataset.split ≠ "valid") := by
  refine ⟨?_, by decide, by decide⟩
  rw [evaluateLoaders, List.mem_filter, pyStrIn_iff]

/-! ### C1 -/

/-- C1 counterexample: at the concrete state `s0` and a batch whose
`loss_dict` is empty, the backward/clip/step skips and untouched
accumulators hold, but — refuting the claim's final conjunct — the
logging/cadence step does NOT execute: `continue` skips line 133, so the
`_logging` call count is unchanged rather than incremented. -/
theorem processBatch_empty_loss_no_logging_counterexample :
    b0.lossDict = [] ∧
    (processBatch p0 0 b0 s0).backwardCalls = s0.backwardCalls ∧
    (processBatch p0 0 b0 s0).clipCalls = s0.clipCalls ∧
    (processBatch p0 0 b0 s0).optimizerSteps = s0.optimizerSteps ∧
    (processBatch p0 0 b0 s0).runningLosses = s0.runningLosses ∧
    (processBatch p0 0 b0 s0).runningCounts = s0.runningCounts ∧
    (processBatch p0 0 b0 s0).loggingCalls ≠ s0.loggingCalls + 1 :=
  ⟨rfl, rfl, rfl, rfl, rfl, rfl, by decide⟩

/-- C1 amended: on a batch with empty `loss_dict`, no backward pass,
gradient clipping or optimizer step occurs and the accumulators are
unchanged — and the logging/cadence step is skipped as well (`continue`
jumps to the next batch), leaving `self.metrics` and the `_logging` call
count unchanged. -/
theorem processBatch_empty_loss_skips_update_and_logging (p : LoopParams)
    (i : Nat) (b : Batch) (s : LoopState) (h : b.lossDict = []) :
    (processBatch p i b s).backwardCalls = s.backwardCalls ∧
    (processBatch p i b s).clipCalls = s.clipCalls ∧
    (processBatch p i b s).optimizerSteps = s.optimizerSteps ∧
    (processBatch p i b s).runningLosses = s.runningLosses ∧
    (processBatch p i b s).runningCounts = s.runningCounts ∧
    (processBatch p i b s).metrics = s.metrics ∧
    (processBatch p i b s).loggingCalls = s.loggingCalls := by
  unfold processBatch
  rw [h]
  simp [updateRunningLossesAndCounts]

/-- C1 witness: the amended statement at a concrete empty-loss batch. -/
theorem processBatch_empty_loss_skips_witness :
    (processBatch p0 3 b0 s0).backwardCalls = s0.backwardCalls ∧
    (processBatch p0 3 b0 s0).clipCalls = s0.clipCalls ∧
    (processBatch p0 3 b0 s0).optimizerSteps = s0.optimizerSteps ∧
    (processBatch p0 3 b0 s0).runningLosses = s0.runningLosses ∧
    (processBatch p0 3 b0 s0).runningCounts = s0.runningCounts ∧
    (processBatch p0 3 b0 s0).metrics = s0.metrics ∧
    (processBatch p0 3 b0 s0).loggingCalls = s0.loggingCalls :=
  processBatch_empty_loss_skips_update_and_logging p0 3 b0 s0 rfl

/-! ### C2 -/

/-- C2 (code bug evaluated at the failing input): after one batch of task
`task1` on dataset `d`, split `train`, with loss `2` and count `4`, the
accumulators are `running_losses = {task1/d/train/loss: 8}` and
`running_counts = {task1: 4}` — the task's accumulated count is `4 > 0`,
stored under the task name.  Yet `_aggregate_losses` probes
`running_counts` with the full identifier (count `0`), so the per-task
metric `task1/d/train/loss = 8/4 = 2` claimed by the spec is NOT emitted,
while the overall metric `model/all/train/loss = 2` is. -/
theorem aggregateLosses_counts_keyed_by_task_name :
    updateRunningLossesAndCounts "d" "train" [("task1", 2)] [("task1", 4)] [] [] =
      ([("task1/d/train/loss", 8)], [("task1", 4)]) ∧
    ddGetI [("task1", 4)] "task1" = 4 ∧
    (aggregateLosses [("task1/d/train/loss", 8)] [("task1", 4)] (1/10)).find?
      (fun p => p.1 == "task1/d/train/loss") = none ∧
    (aggregateLosses [("task1/d/train/loss", 8)] [("task1", 4)] (1/10)).find?
      (fun p => p.1 == "model/all/train/loss") =
        some ("model/all/train/loss", 2) := by
  have hs : "task1" ++ "/" ++ "d" ++ "/" ++ "train" ++ "/" ++ "loss" =
      "task1/d/train/loss" := by decide
  refine ⟨?_, by decide, ?_, ?_⟩
  · simp +decide [updateRunningLossesAndCounts, ddAddQ, ddAddI, dictSetQ, dictSetI,
      ddGetQ, ddGetI, hs]
    norm_num
  · simp +decide [aggregateLosses, dictSetQ, ddGetQ, ddGetI, List.find?]
  · simp +decide [aggregateLosses, dictSetQ, ddGetQ, ddGetI, List.find?]
    norm_num

/-! ### C3 -/

/-- C3 counterexample: a concrete successful `train_model` invocation with
`close = fun x => x + 1` on model `41`: the close routine's model is `42`
and is bound to the local variable, but the call's result is `None`
(`train_model` is annotated `-> None` and falls off its end), so the
result is not the model value returned by the cadence manager's close
routine. -/
theorem trainModel_returns_none_counterexample :
    trainModel cfg0 [dlTrain] [] id id (fun x => x + 1) 41 = .ok run0 ∧
    run0.closedModel = 42 ∧
    run0.returnValue = none ∧
    run0.returnValue ≠ some run0.closedModel :=
  ⟨rfl, rfl, rfl, by decide⟩

/-- C3 amended: every successful `train_model` invocation returns `None`;
the model value produced by the cadence manager's close routine is only
rebound to the local variable `model` (callers observe it solely through
in-place mutation of the model object, not through the return value). -/
theorem trainModel_return_is_none (cfg : Config) (dls : List DictDataLoader)
    (eb : List Batch) (wN dN : ℚ → ℚ) (close : Model → Model) (m : Model)
    (run : TrainRun) (h : trainModel cfg dls eb wN dN close m = .ok run) :
    run.returnValue = none ∧ run.closedModel = close m := by
  unfold trainModel at h
  repeat' split at h
  any_goals exact (Except.noConfusion h)
  all_goals try simp only [] at h
  all_goals repeat' split at h
  any_goals exact (Except.noConfusion h)
  all_goals injection h with h2
  all_goals subst h2
  all_goals exact ⟨rfl, rfl⟩

/-- C3 witness: the amended statement at the concrete invocation. -/
theorem trainModel_return_is_none_witness :
    run0.returnValue = none ∧ run0.closedModel = 42 :=
  trainModel_return_is_none cfg0 [dlTrain] [] id id (fun x => x + 1) 41 run0 rfl

end SnorkelTrainer
